import Mathlib

set_option maxRecDepth 20000
set_option linter.unusedVariables false

/-!
Verification of the telebot repository (src/main.py) against its
natural-language specification.

The Python source is shallowly embedded: pure fragments become Lean
functions; the network, the database session and the JSON bodies are
passed in explicitly as oracle values describing the outcome the runtime
would deliver; machine integers are `Nat`/`Int` with explicit `% 2^32`
where the MD5 arithmetic overflows.  Every definition is translated from
`src/main.py`; definitions whose doc comment says otherwise follow the
spec's words for a refinement comparison.
-/

/-! ### Python semantics helpers -/

/-- Resolution of one Python slice endpoint against a list of length `n`:
a negative index counts from the end (clamped below at 0), a non-negative
index is clamped above at `n`. -/
def pyIndex (n : Nat) (i : Int) : Nat :=
  if i < 0 then ((n : Int) + i).toNat else min i.toNat n

/-- Python list slicing `l[start:stop]` (step 1), as used by
`projects[start_index:end_index]` in `build_projects_keyboard`. -/
def pySlice {α : Type} (l : List α) (start stop : Int) : List α :=
  let s := pyIndex l.length start
  let e := pyIndex l.length stop
  (l.drop s).take (e - s)

/-! ### Configuration constants (src/main.py lines 29-30) -/

/-- Source line 29: `PAGE_SIZE = 4`. -/
def PAGE_SIZE : Nat := 4

/-- Source line 30: `MAX_FILE_SIZE = 5 * 1024 * 1024  # 5MB` — declared and
never referenced by any other line of the file. -/
def MAX_FILE_SIZE : Nat := 5 * 1024 * 1024

/-! ### ORM rows (src/main.py lines 56-76).  Only the columns the
workflow reads are carried. -/

structure Project where
  ProjectId : Int
  ProjectName : String
deriving DecidableEq, Repr

/-- Source line 72: `TaskName = Column(String(100), ...)`. -/
def taskNameColumnLength : Nat := 100

/-- Source line 74: `TaskDescription = Column(String(500), ...)`. -/
def taskDescriptionColumnLength : Nat := 500

/-! ### Pagination engine: `build_projects_keyboard` (lines 220-244).
The aiogram markup is modelled by the two groups of buttons the code
builds: one `markup.add` per project button, then a single `markup.row`
of navigation buttons (absent when empty). -/

structure InlineKeyboardButton where
  text : String
  callback_data : String
deriving DecidableEq, Repr

structure ProjectsKeyboard where
  projectButtons : List InlineKeyboardButton
  navButtons : List InlineKeyboardButton
deriving DecidableEq, Repr

/-- Source line 223: `total_pages = (total_projects + PAGE_SIZE - 1) // PAGE_SIZE`. -/
def total_pages (total_projects : Nat) : Nat :=
  (total_projects + PAGE_SIZE - 1) / PAGE_SIZE

def build_projects_keyboard (projects : List Project) (page : Int) : ProjectsKeyboard :=
  let start_index : Int := page * ((PAGE_SIZE : Nat) : Int)
  let end_index : Int := start_index + ((PAGE_SIZE : Nat) : Int)
  let page_projects := pySlice projects start_index end_index
  let projectButtons := page_projects.map (fun prj =>
    { text := prj.ProjectName
      callback_data := "select_project_" ++ toString prj.ProjectId })
  let navButtons : List InlineKeyboardButton :=
    if 1 < total_pages projects.length then
      (if 0 < page then
        [{ text := "« Попередня", callback_data := "page_" ++ toString (page - 1) }]
       else []) ++
      (if page < ((total_pages projects.length : Nat) : Int) - 1 then
        [{ text := "Наступна »", callback_data := "page_" ++ toString (page + 1) }]
       else [])
    else []
  { projectButtons := projectButtons, navButtons := navButtons }

/-- The "has previous page" affordance: a `« Попередня` button is present. -/
def hasPrevButton (kb : ProjectsKeyboard) : Bool :=
  kb.navButtons.any (fun b => b.text = "« Попередня")

/-- The "has next page" affordance: a `Наступна »` button is present. -/
def hasNextButton (kb : ProjectsKeyboard) : Bool :=
  kb.navButtons.any (fun b => b.text = "Наступна »")

/-! Sample data used by closed witness/counterexample statements. -/

def sampleProject (i : Nat) : Project :=
  { ProjectId := (i : Int), ProjectName := "P" ++ toString i }

def fiveProjects : List Project := (List.range 5).map sampleProject

def tenProjects : List Project := (List.range 10).map sampleProject

/-! ### Helper lemmas -/

theorem take_min_length {α : Type} (l : List α) (k : Nat) :
    l.take (min k l.length) = l.take k := by
  rcases Nat.le_total k l.length with h | h
  · rw [Nat.min_eq_left h]
  · rw [Nat.min_eq_right h, List.take_length, List.take_of_length_le h]

/-- The slice `build_projects_keyboard` takes for a non-negative in-range
page index `p` is exactly `projects[p*4 : p*4+4]` as a drop/take. -/
theorem pySlice_page {α : Type} (l : List α) (p : Nat) (h : p * 4 + 1 ≤ l.length) :
    pySlice l ((p : Int) * 4) ((p : Int) * 4 + 4) = (l.drop (p * 4)).take 4 := by
  have hs : pyIndex l.length ((p : Int) * 4) = p * 4 := by
    unfold pyIndex
    rw [if_neg (by omega)]
    omega
  have he : pyIndex l.length ((p : Int) * 4 + 4) = min (p * 4 + 4) l.length := by
    unfold pyIndex
    rw [if_neg (by omega)]
    omega
  have hmin : min (p * 4 + 4) l.length - p * 4 = min 4 ((l.drop (p * 4)).length) := by
    rw [List.length_drop]
    omega
  unfold pySlice
  rw [hs, he]
  show List.take (min (p * 4 + 4) l.length - p * 4) (l.drop (p * 4))
      = List.take 4 (l.drop (p * 4))
  rw [hmin, take_min_length]

theorem next_text_ne_prev : ¬ (("Наступна »" : String) = "« Попередня") := by decide

theorem prev_text_ne_next : ¬ (("« Попередня" : String) = "Наступна »") := by decide

/-- Closed form of the previous-page affordance of `build_projects_keyboard`. -/
theorem hasPrev_eq (projects : List Project) (page : Int) :
    hasPrevButton (build_projects_keyboard projects page)
      = (decide (1 < total_pages projects.length) && decide (0 < page)) := by
  unfold hasPrevButton build_projects_keyboard
  by_cases h1 : 1 < total_pages projects.length
  · by_cases h2 : 0 < page
    · by_cases h3 : page < ((total_pages projects.length : Nat) : Int) - 1 <;>
        simp [h1, h2, h3]
    · by_cases h3 : page < ((total_pages projects.length : Nat) : Int) - 1 <;>
        simp [h1, h2, h3, next_text_ne_prev]
  · simp [h1]

/-- Closed form of the next-page affordance of `build_projects_keyboard`. -/
theorem hasNext_eq (projects : List Project) (page : Int) :
    hasNextButton (build_projects_keyboard projects page)
      = (decide (1 < total_pages projects.length)
          && decide (page < ((total_pages projects.length : Nat) : Int) - 1)) := by
  unfold hasNextButton build_projects_keyboard
  by_cases h1 : 1 < total_pages projects.length
  · by_cases h2 : 0 < page
    · by_cases h3 : page < ((total_pages projects.length : Nat) : Int) - 1 <;>
        simp [h1, h2, h3, prev_text_ne_next]
    · by_cases h3 : page < ((total_pages projects.length : Nat) : Int) - 1 <;>
        simp [h1, h2, h3]
  · simp [h1]

/-! ### Claim C1 -/

/-- C1: for every project list of length `n ≥ 0` and every valid zero-based
page index `p` with `0 ≤ p < ceil(n/4)`, the keyboard built by
`build_projects_keyboard` contains exactly the projects of slice
`[p*4, p*4+4)` (of length `min 4 (n - p*4)`), has the previous-page
affordance iff `p > 0` and the next-page affordance iff
`p < ceil(n/4) - 1` (stated as `p + 1 < ceil(n/4)`); for the empty list
the page is empty and neither affordance is present. -/
theorem C1_pagination_contract :
    (∀ (projects : List Project) (p : Nat), p < total_pages projects.length →
      (build_projects_keyboard projects (p : Int)).projectButtons
          = ((projects.drop (p * 4)).take 4).map (fun prj =>
              { text := prj.ProjectName
                callback_data := "select_project_" ++ toString prj.ProjectId })
        ∧ (build_projects_keyboard projects (p : Int)).projectButtons.length
            = min 4 (projects.length - p * 4)
        ∧ hasPrevButton (build_projects_keyboard projects (p : Int)) = decide (0 < p)
        ∧ hasNextButton (build_projects_keyboard projects (p : Int))
            = decide (p + 1 < total_pages projects.length))
    ∧ (∀ page : Int,
        (build_projects_keyboard [] page).projectButtons = []
        ∧ (build_projects_keyboard [] page).navButtons = []) := by
  have hps : ((PAGE_SIZE : Nat) : Int) = 4 := by norm_num [PAGE_SIZE]
  constructor
  · intro projects p hp
    have htp4 : total_pages projects.length = (projects.length + 3) / 4 := by
      unfold total_pages PAGE_SIZE
      omega
    have hp' : p < (projects.length + 3) / 4 := by omega
    have hlen : p * 4 + 1 ≤ projects.length := by omega
    have hbtn : (build_projects_keyboard projects (p : Int)).projectButtons
        = ((projects.drop (p * 4)).take 4).map (fun prj =>
            { text := prj.ProjectName
              callback_data := "select_project_" ++ toString prj.ProjectId }) := by
      simp only [build_projects_keyboard, hps]
      rw [pySlice_page projects p hlen]
    refine ⟨hbtn, ?_, ?_, ?_⟩
    · rw [hbtn]
      simp [List.length_take, List.length_drop]
    · rw [hasPrev_eq]
      rcases Nat.eq_zero_or_pos p with rfl | hpp
      · simp
      · have h1 : 1 < total_pages projects.length := by omega
        have h2 : (0 : Int) < (p : Int) := by exact_mod_cast hpp
        simp [h1, h2, hpp]
    · rw [hasNext_eq]
      by_cases hnx : p + 1 < total_pages projects.length
      · have h1 : 1 < total_pages projects.length := by omega
        have h2 : ((p : Nat) : Int) < ((total_pages projects.length : Nat) : Int) - 1 := by
          omega
        simp [h1, h2, hnx]
      · have h2 : ¬ (((p : Nat) : Int) < ((total_pages projects.length : Nat) : Int) - 1) := by
          omega
        simp [h2, hnx]
  · intro page
    constructor
    · simp [build_projects_keyboard, pySlice]
    · simp [build_projects_keyboard, total_pages, PAGE_SIZE]

/-- C1 witness: page 1 of a five-project list, evaluated concretely. -/
theorem C1_pagination_contract_witness :
    (build_projects_keyboard fiveProjects ((1 : Nat) : Int)).projectButtons
        = ((fiveProjects.drop (1 * 4)).take 4).map (fun prj =>
            { text := prj.ProjectName
              callback_data := "select_project_" ++ toString prj.ProjectId })
      ∧ (build_projects_keyboard fiveProjects ((1 : Nat) : Int)).projectButtons.length
          = min 4 (fiveProjects.length - 1 * 4)
      ∧ hasPrevButton (build_projects_keyboard fiveProjects ((1 : Nat) : Int)) = decide (0 < 1)
      ∧ hasNextButton (build_projects_keyboard fiveProjects ((1 : Nat) : Int))
          = decide (1 + 1 < total_pages fiveProjects.length) :=
  C1_pagination_contract.1 fiveProjects 1 (by decide)

/-! ### Claim C2 -/

/-- C2 counterexample: with one project, the out-of-range page index 1 yields
an empty page even though the nearest valid page (page 0) is non-empty, and
the negative page index -2 on ten projects is not page 0 either — the
function does not clamp to the nearest valid page. -/
theorem C2_no_clamping_counterexample :
    (build_projects_keyboard [sampleProject 0] 1).projectButtons = []
    ∧ (build_projects_keyboard [sampleProject 0] 0).projectButtons ≠ []
    ∧ (build_projects_keyboard tenProjects (-2)).projectButtons
        ≠ (build_projects_keyboard tenProjects 0).projectButtons := by
  refine ⟨by decide, by decide, by decide⟩

/-- C2 amended: out-of-range page indices never error — the function is total
and returns the raw Python slice `projects[p*4 : p*4+4]`.  For `p ≥
ceil(n/4)` that slice is empty (no clamping to the last valid page), the
next affordance is absent, and a stale previous affordance remains iff
`n > 4`; for `p = -1` the slice is likewise empty by Python negative-index
semantics. -/
theorem C2_out_of_range_behaviour :
    (∀ (projects : List Project) (p : Int),
        ((total_pages projects.length : Nat) : Int) ≤ p →
          (build_projects_keyboard projects p).projectButtons = []
          ∧ hasNextButton (build_projects_keyboard projects p) = false
          ∧ hasPrevButton (build_projects_keyboard projects p)
              = (decide (1 < total_pages projects.length) && decide (0 < p)))
    ∧ (∀ projects : List Project,
        (build_projects_keyboard projects (-1)).projectButtons = []) := by
  have hps : ((PAGE_SIZE : Nat) : Int) = 4 := by norm_num [PAGE_SIZE]
  constructor
  · intro projects p hp
    have htp4 : total_pages projects.length = (projects.length + 3) / 4 := by
      unfold total_pages PAGE_SIZE
      omega
    refine ⟨?_, ?_, ?_⟩
    · simp only [build_projects_keyboard, hps]
      have hs : pyIndex projects.length (p * 4) = projects.length := by
        unfold pyIndex
        rw [if_neg (by omega)]
        omega
      have he : pyIndex projects.length (p * 4 + 4) = projects.length := by
        unfold pyIndex
        rw [if_neg (by omega)]
        omega
      unfold pySlice
      rw [hs, he]
      simp
    · rw [hasNext_eq]
      have h2 : ¬ (p < ((total_pages projects.length : Nat) : Int) - 1) := by omega
      simp [h2]
    · rw [hasPrev_eq]
  · intro projects
    simp only [build_projects_keyboard, hps]
    have hs : pyIndex projects.length ((-1) * 4) = ((projects.length : Int) - 4).toNat := by
      unfold pyIndex
      rw [if_pos (by omega)]
      omega
    have he : pyIndex projects.length ((-1) * 4 + 4) = 0 := by
      unfold pyIndex
      rw [if_neg (by omega)]
      omega
    unfold pySlice
    rw [hs, he]
    simp

/-- C2 witness for the amended statement: one project, stale page index 5. -/
theorem C2_out_of_range_behaviour_witness :
    (build_projects_keyboard [sampleProject 0] 5).projectButtons = []
    ∧ hasNextButton (build_projects_keyboard [sampleProject 0] 5) = false
    ∧ hasPrevButton (build_projects_keyboard [sampleProject 0] 5)
        = (decide (1 < total_pages [sampleProject 0].length) && decide ((0 : Int) < 5)) :=
  C2_out_of_range_behaviour.1 [sampleProject 0] 5 (by decide)

/-! ### Python string case mapping.

`str.lower`/`str.upper` restricted to the character ranges the program
actually compares: ASCII letters, the basic Cyrillic block (А-Я/а-я,
Ѐ-Џ/ѐ-џ, which contains the Ukrainian letters Є І Ї), and Ґ/ґ. -/

def pyLowerChar (c : Char) : Char :=
  let n := c.toNat
  if 65 ≤ n ∧ n ≤ 90 then Char.ofNat (n + 32)
  else if 0x410 ≤ n ∧ n ≤ 0x42F then Char.ofNat (n + 0x20)
  else if 0x400 ≤ n ∧ n ≤ 0x40F then Char.ofNat (n + 0x50)
  else if n = 0x490 then Char.ofNat 0x491
  else c

def pyUpperChar (c : Char) : Char :=
  let n := c.toNat
  if 97 ≤ n ∧ n ≤ 122 then Char.ofNat (n - 32)
  else if 0x430 ≤ n ∧ n ≤ 0x44F then Char.ofNat (n - 0x20)
  else if 0x450 ≤ n ∧ n ≤ 0x45F then Char.ofNat (n - 0x50)
  else if n = 0x491 then Char.ofNat 0x490
  else c

def pyLower (s : String) : String := String.mk (s.data.map pyLowerChar)

def pyUpper (s : String) : String := String.mk (s.data.map pyUpperChar)

/-! ### Message dispatch (aiogram 2.x).

`src/main.py` registers four message handlers, in file order:
`send_welcome` (line 247, `commands=['start']`), `handle_phone_number`
(line 264, `content_types=["contact"]`), `handle_text` (line 301,
`content_types=["text"]`) and `handle_task_input` (line 406,
`lambda message: True`; aiogram 2 applies its default content-type filter
TEXT to this handler).  aiogram delivers a message to the first handler
whose filters match. -/

inductive MessageContent where
  | text (t : String)
  | contact (phone : String)
  | photo (sizeBytes : Nat)
deriving DecidableEq, Repr

inductive Handler where
  | send_welcome
  | handle_phone_number
  | handle_text
  | handle_task_input
deriving DecidableEq, Repr

/-- aiogram's `Command` filter for `commands=['start']`: the first
whitespace-separated token must be `/start`, an optional `@botname`
mention stripped, case-insensitively. -/
def isStartCommand (t : String) : Bool :=
  match t.data.takeWhile (fun c => c ≠ ' ') with
  | '/' :: rest => ((rest.takeWhile (fun c => c ≠ '@')).map Char.toLower) == "start".data
  | _ => false

def matchesHandler (h : Handler) (m : MessageContent) : Bool :=
  match h, m with
  | .send_welcome, .text t => isStartCommand t
  | .handle_phone_number, .contact _ => true
  | .handle_text, .text _ => true
  | .handle_task_input, .text _ => true
  | _, _ => false

def handlerOrder : List Handler :=
  [.send_welcome, .handle_phone_number, .handle_text, .handle_task_input]

def dispatchMessage (m : MessageContent) : Option Handler :=
  handlerOrder.find? (fun h => matchesHandler h m)

/-! ### `handle_text` (lines 301-341).

The bank-API call is passed in as an oracle describing the outcome the
network would deliver; the JSON float `rate` is carried opaquely as its
rendered text. -/

structure Currency where
  cc : String
  txt : String
  rate : String
deriving DecidableEq, Repr

inductive BankResponse where
  | clientError (e : String)
  | httpStatus (code : Nat)
  | dataError (e : String)
  | ok (items : List Currency)
deriving DecidableEq, Repr

def handle_text_reply (t : String) (bank : BankResponse) : String :=
  if pyLower t = "привіт" then "Привіт!"
  else
    match bank with
    | .httpStatus _ => "Сталася помилка при отриманні курсу валюти. Спробуйте пізніше."
    | .clientError _ => "Сталася помилка при отриманні курсу валюти. Спробуйте пізніше."
    | .dataError _ => "Сталася помилка при обробці даних. Спробуйте пізніше."
    | .ok items =>
      match items.find? (fun c => c.cc == pyUpper t) with
      | some c => "Привіт, курс " ++ c.txt ++ " на сьогодні: " ++ c.rate ++ " UAH"
      | none => "Помилка, таку валюту не знайдено"

/-! ### `handle_task_input` (lines 406-432).

When the user is found it answers a fixed "not implemented" text and
stores nothing; when the user is unknown it answers nothing.  The message
text is read (`message.text.strip()`) but never influences the reply. -/

def handle_task_input_reply (userFound : Bool) (text : String) : Option String :=
  if userFound then some "Функціонал для обробки задач ще не реалізовано." else none

/-! ### Claim C9 -/

/-- C9 counterexample: the inbound text message `/start` is a plain-text
message consumed by `send_welcome`, not by `handle_text`. -/
theorem C9_start_command_counterexample :
    dispatchMessage (.text "/start") = some .send_welcome
    ∧ Handler.send_welcome ≠ Handler.handle_text := by
  refine ⟨by decide, by decide⟩

/-- C9 amended: every inbound text message other than the `/start` command
is consumed by `handle_text` — greeting when the lowercased text equals
`привіт`, otherwise a bank-API currency lookup keyed by the uppercased
text — and no text message is ever dispatched to `handle_task_input`. -/
theorem C9_text_dispatch :
    (∀ t : String, isStartCommand t = false →
        dispatchMessage (.text t) = some .handle_text)
    ∧ (∀ (t : String) (bank : BankResponse), pyLower t = "привіт" →
        handle_text_reply t bank = "Привіт!")
    ∧ (∀ (t : String) (items : List Currency) (c : Currency),
        ¬ (pyLower t = "привіт") →
        items.find? (fun x => x.cc == pyUpper t) = some c →
          handle_text_reply t (.ok items)
              = "Привіт, курс " ++ c.txt ++ " на сьогодні: " ++ c.rate ++ " UAH"
          ∧ c.cc = pyUpper t)
    ∧ (∀ t : String, dispatchMessage (.text t) ≠ some .handle_task_input) := by
  refine ⟨?_, ?_, ?_, ?_⟩
  · intro t h
    simp [dispatchMessage, handlerOrder, List.find?, matchesHandler, h]
  · intro t bank h
    simp [handle_text_reply, h]
  · intro t items c hne hfind
    have hcc : c.cc = pyUpper t := by
      have := List.find?_some hfind
      exact eq_of_beq (by simpa using this)
    refine ⟨?_, hcc⟩
    simp [handle_text_reply, hne, hfind]
  · intro t
    by_cases h : isStartCommand t <;>
      simp [dispatchMessage, handlerOrder, List.find?, matchesHandler, h]

/-- C9 witness: the plain text `USD` is dispatched to `handle_text` and
answered with the rate of the matching currency item. -/
theorem C9_text_dispatch_witness :
    dispatchMessage (.text "USD") = some .handle_text
    ∧ handle_text_reply "USD" (.ok [{ cc := "USD", txt := "Долар США", rate := "41.2" }])
        = "Привіт, курс " ++ "Долар США" ++ " на сьогодні: " ++ "41.2" ++ " UAH" :=
  ⟨C9_text_dispatch.1 "USD" (by decide),
   (C9_text_dispatch.2.2.1 "USD" [{ cc := "USD", txt := "Долар США", rate := "41.2" }]
      { cc := "USD", txt := "Долар США", rate := "41.2" } (by decide) (by decide)).1⟩

/-! ### Claim C5 -/

/-- C5: the code performs no task-name/description length validation at
all.  A 46-character task name is dispatched to `handle_text` (the
currency handler), never to `handle_task_input`; and `handle_task_input`
itself answers the same fixed "not implemented" text for 45, 46 and 0
characters, storing nothing.  The ORM caps are 100/500, not 45/150. -/
theorem C5_no_length_validation :
    dispatchMessage (.text (String.mk (List.replicate 46 'a'))) = some .handle_text
    ∧ handle_task_input_reply true (String.mk (List.replicate 46 'a'))
        = some "Функціонал для обробки задач ще не реалізовано."
    ∧ handle_task_input_reply true (String.mk (List.replicate 45 'a'))
        = handle_task_input_reply true (String.mk (List.replicate 46 'a'))
    ∧ handle_task_input_reply true ""
        = handle_task_input_reply true (String.mk (List.replicate 46 'a'))
    ∧ taskNameColumnLength = 100
    ∧ taskDescriptionColumnLength = 500 := by
  refine ⟨by decide, rfl, rfl, rfl, rfl, rfl⟩

/-! ### Claim C7 -/

/-- C7: no registered handler accepts photo messages at all — a photo of
any size (6 MB as much as 4 MB) is dispatched to no handler, so no
download, no 5 MB cap check and no attachment storage ever happens; the
`MAX_FILE_SIZE` constant is declared as 5 MB but never used. -/
theorem C7_photos_never_handled :
    (∀ size : Nat, dispatchMessage (.photo size) = none)
    ∧ dispatchMessage (.photo (6 * 1024 * 1024)) = none
    ∧ dispatchMessage (.photo (4 * 1024 * 1024)) = none
    ∧ MAX_FILE_SIZE = 5 * 1024 * 1024 := by
  refine ⟨?_, ?_, ?_, rfl⟩
  · intro size
    simp [dispatchMessage, handlerOrder, List.find?, matchesHandler]
  · simp [dispatchMessage, handlerOrder, List.find?, matchesHandler]
  · simp [dispatchMessage, handlerOrder, List.find?, matchesHandler]

/-! ### Local persistence gateway (lines 85-130 and 200-217).

The SQLAlchemy session is embedded as explicit state passing: `Database`
is the visible store contents, and the outcome of `commit()` is an oracle
`commitError : Option String` (`some e` plays the raised
`SQLAlchemyError e`, which the source catches, rolls back and converts
into a boolean/error outcome). -/

structure UserRow where
  UserPhoneNumber : String
  TelegramChatId : Option Int
deriving DecidableEq, Repr

structure TaskRow where
  TaskName : String
  TaskLeader : String
  TaskDescription : String
  ImagePath : Option String
  TaskProjectId : Int
deriving DecidableEq, Repr

structure Database where
  users : List UserRow
  tasks : List TaskRow
deriving DecidableEq, Repr

/-- Function `is_valid_phone` (lines 85-87): the regex `^\+?\d{10,15}$` over the
character list. -/
def is_valid_phone (phone : String) : Bool :=
  let digits :=
    match phone.data with
    | '+' :: rest => rest
    | cs => cs
  decide (10 ≤ digits.length) && decide (digits.length ≤ 15)
    && digits.all (fun c => c.isDigit)

/-- Function `add_or_update_user` (lines 101-117): update the `TelegramChatId` of
the user with this phone number (the phone column is unique), or insert a
new user; commit; on `SQLAlchemyError` roll back and return `False`. -/
def add_or_update_user (chat_id : Int) (user_phone : String) (db : Database)
    (commitError : Option String) : Database × Bool :=
  let updated :=
    if db.users.any (fun u => u.UserPhoneNumber == user_phone) then
      { db with users := db.users.map (fun u =>
          if u.UserPhoneNumber == user_phone then { u with TelegramChatId := some chat_id }
          else u) }
    else
      { db with users := db.users ++ [{ UserPhoneNumber := user_phone
                                        TelegramChatId := some chat_id }] }
  match commitError with
  | none => (updated, true)
  | some _ => (db, false)

/-- Function `get_projects_by_phone` (lines 120-130): the join query outcome is the
oracle; on `SQLAlchemyError` the function returns `[]`. -/
def get_projects_by_phone (queryResult : Except String (List Project)) : List Project :=
  match queryResult with
  | .ok projects => projects
  | .error _ => []

/-- Function `save_task_to_db` (lines 200-217): insert one task row and commit; on
`SQLAlchemyError e` roll back and return the error text.  The `user_id`
parameter is accepted and unused, as in the source. -/
def save_task_to_db (user_id : Int) (task_name : String) (description : String)
    (file_path : Option String) (project_id : Int) (task_leader : String)
    (db : Database) (commitError : Option String) : Database × String :=
  let newDb := { db with tasks := db.tasks ++ [{ TaskName := task_name
                                                 TaskLeader := task_leader
                                                 TaskDescription := description
                                                 ImagePath := file_path
                                                 TaskProjectId := project_id }] }
  match commitError with
  | none => (newDb, "Задача успішно збережена у базу даних.")
  | some e => (db, "Помилка збереження задачі у базу даних: " ++ e)

/-- Handler `handle_phone_number` (lines 264-298), as the user-visible reply it
produces given the contact payload, the upsert outcome and the project
query outcome. -/
def handle_phone_reply (contact : Option String) (chat_id : Int) (db : Database)
    (commitError : Option String) (queryResult : Except String (List Project)) : String :=
  match contact with
  | none => "Сталась помилка, контакт не розпізнано."
  | some user_phone =>
    if is_valid_phone user_phone = false then
      "Некоректний формат номера телефону. Спробуйте ще раз."
    else if (add_or_update_user chat_id user_phone db commitError).2 = false then
      "Сталася помилка при збереженні даних. Спробуйте пізніше."
    else if (get_projects_by_phone queryResult).isEmpty then
      "Не знайдено проєктів для цього номера телефону."
    else
      "Оберіть проєкт:"

/-! ### Claim C8 -/

/-- C8: a failed local write (upsert via `add_or_update_user`, insert via
`save_task_to_db`) rolls the transaction back — the database value is
unchanged, no partial row visible — and a boolean (resp. error text)
outcome is returned to the caller; both functions are total, so no
exception propagates.  On success the write is applied. -/
theorem C8_write_rollback :
    (∀ (chat_id : Int) (user_phone : String) (db : Database) (e : String),
        add_or_update_user chat_id user_phone db (some e) = (db, false))
    ∧ (∀ (chat_id : Int) (user_phone : String) (db : Database),
        (add_or_update_user chat_id user_phone db none).2 = true)
    ∧ (∀ (user_id : Int) (task_name description : String) (file_path : Option String)
          (project_id : Int) (task_leader : String) (db : Database) (e : String),
        save_task_to_db user_id task_name description file_path project_id task_leader
            db (some e)
          = (db, "Помилка збереження задачі у базу даних: " ++ e))
    ∧ (∀ (user_id : Int) (task_name description : String) (file_path : Option String)
          (project_id : Int) (task_leader : String) (db : Database),
        save_task_to_db user_id task_name description file_path project_id task_leader
            db none
          = ({ db with tasks := db.tasks ++ [{ TaskName := task_name
                                               TaskLeader := task_leader
                                               TaskDescription := description
                                               ImagePath := file_path
                                               TaskProjectId := project_id }] },
             "Задача успішно збережена у базу даних.")) :=
  ⟨fun _ _ _ _ => rfl, fun _ _ _ => rfl, fun _ _ _ _ _ _ _ _ => rfl,
   fun _ _ _ _ _ _ _ => rfl⟩

/-! ### Claim C10 -/

/-- C10: a database error in the project query makes
`get_projects_by_phone` return the empty list, and the contact-submission
reply on a query error is exactly the "no projects found" reply a user
with genuinely zero projects receives. -/
theorem C10_db_error_looks_like_no_projects :
    (∀ e : String, get_projects_by_phone (Except.error e) = [])
    ∧ (∀ (phone : String) (chat_id : Int) (db : Database) (e : String),
        is_valid_phone phone = true →
          handle_phone_reply (some phone) chat_id db none (Except.error e)
              = handle_phone_reply (some phone) chat_id db none (Except.ok [])
          ∧ handle_phone_reply (some phone) chat_id db none (Except.error e)
              = "Не знайдено проєктів для цього номера телефону.") := by
  refine ⟨fun _ => rfl, ?_⟩
  intro phone chat_id db e hv
  constructor <;>
    simp [handle_phone_reply, hv, add_or_update_user, get_projects_by_phone]

/-- C10 witness: a valid registered phone with a failing project query. -/
theorem C10_db_error_looks_like_no_projects_witness :
    handle_phone_reply (some "+380501234567") 1 { users := [], tasks := [] } none
        (Except.error "connection lost")
      = handle_phone_reply (some "+380501234567") 1 { users := [], tasks := [] } none
        (Except.ok [])
    ∧ handle_phone_reply (some "+380501234567") 1 { users := [], tasks := [] } none
        (Except.error "connection lost")
      = "Не знайдено проєктів для цього номера телефону." :=
  C10_db_error_looks_like_no_projects.2 "+380501234567" 1 { users := [], tasks := [] }
    "connection lost" (by decide)

/-! ### MD5 (`hashlib.md5(x.encode()).hexdigest()`), over byte lists.

32-bit words are `Nat` with explicit `% 2^32`; `.encode()` is UTF-8. -/

def M32 : Nat := 4294967296

def utf8EncodeChar (c : Char) : List Nat :=
  let n := c.toNat
  if n < 0x80 then [n]
  else if n < 0x800 then [0xC0 ||| (n >>> 6), 0x80 ||| (n &&& 0x3F)]
  else if n < 0x10000 then
    [0xE0 ||| (n >>> 12), 0x80 ||| ((n >>> 6) &&& 0x3F), 0x80 ||| (n &&& 0x3F)]
  else
    [0xF0 ||| (n >>> 18), 0x80 ||| ((n >>> 12) &&& 0x3F),
     0x80 ||| ((n >>> 6) &&& 0x3F), 0x80 ||| (n &&& 0x3F)]

def utf8Bytes (s : String) : List Nat := s.data.flatMap utf8EncodeChar

/-- The 64 MD5 round constants `floor(abs(sin(i+1)) * 2^32)`. -/
def md5K : List Nat :=
  [3614090360, 3905402710, 606105819, 3250441966, 4118548399, 1200080426,
   2821735955, 4249261313, 1770035416, 2336552879, 4294925233, 2304563134,
   1804603682, 4254626195, 2792965006, 1236535329, 4129170786, 3225465664,
   643717713, 3921069994, 3593408605, 38016083, 3634488961, 3889429448,
   568446438, 3275163606, 4107603335, 1163531501, 2850285829, 4243563512,
   1735328473, 2368359562, 4294588738, 2272392833, 1839030562, 4259657740,
   2763975236, 1272893353, 4139469664, 3200236656, 681279174, 3936430074,
   3572445317, 76029189, 3654602809, 3873151461, 530742520, 3299628645,
   4096336452, 1126891415, 2878612391, 4237533241, 1700485571, 2399980690,
   4293915773, 2240044497, 1873313359, 4264355552, 2734768916, 1309151649,
   4149444226, 3174756917, 718787259, 3951481745]

/-- The 64 MD5 per-round left-rotation amounts. -/
def md5S : List Nat :=
  [7, 12, 17, 22, 7, 12, 17, 22, 7, 12, 17, 22, 7, 12, 17, 22,
   5, 9, 14, 20, 5, 9, 14, 20, 5, 9, 14, 20, 5, 9, 14, 20,
   4, 11, 16, 23, 4, 11, 16, 23, 4, 11, 16, 23, 4, 11, 16, 23,
   6, 10, 15, 21, 6, 10, 15, 21, 6, 10, 15, 21, 6, 10, 15, 21]

def not32 (x : Nat) : Nat := (M32 - 1) ^^^ x

def add32 (a b : Nat) : Nat := (a + b) % M32

def rotl32 (x s : Nat) : Nat := ((x <<< s) ||| (x >>> (32 - s))) % M32

def md5F (b c d : Nat) : Nat := (b &&& c) ||| (not32 b &&& d)

def md5G (b c d : Nat) : Nat := (b &&& d) ||| (c &&& not32 d)

def md5H (b c d : Nat) : Nat := b ^^^ c ^^^ d

def md5I (b c d : Nat) : Nat := c ^^^ (b ||| not32 d)

/-- Append the `0x80` marker, zero padding to 56 mod 64, and the 64-bit
little-endian bit length. -/
def md5Pad (msg : List Nat) : List Nat :=
  let len := msg.length
  let padLen := (119 - len % 64) % 64
  let bitLen := (len * 8) % (2 ^ 64)
  msg ++ [0x80] ++ List.replicate padLen 0 ++
    (List.range 8).map (fun i => (bitLen >>> (8 * i)) &&& 0xFF)

/-- Decode a 64-byte block into 16 little-endian 32-bit words. -/
def md5Words (block : List Nat) : List Nat :=
  (List.range 16).map (fun j =>
    block.getD (4 * j) 0 + 256 * block.getD (4 * j + 1) 0
      + 65536 * block.getD (4 * j + 2) 0 + 16777216 * block.getD (4 * j + 3) 0)

def md5Step (w : List Nat) (st : Nat × Nat × Nat × Nat) (i : Nat) : Nat × Nat × Nat × Nat :=
  let (a, b, c, d) := st
  let f :=
    if i < 16 then md5F b c d
    else if i < 32 then md5G b c d
    else if i < 48 then md5H b c d
    else md5I b c d
  let g :=
    if i < 16 then i
    else if i < 32 then (5 * i + 1) % 16
    else if i < 48 then (3 * i + 5) % 16
    else (7 * i) % 16
  let tmp := add32 (add32 (add32 a f) (md5K.getD i 0)) (w.getD g 0)
  (d, add32 b (rotl32 tmp (md5S.getD i 0)), b, c)

def md5Block (st : Nat × Nat × Nat × Nat) (block : List Nat) : Nat × Nat × Nat × Nat :=
  let w := md5Words block
  let (a, b, c, d) := (List.range 64).foldl (md5Step w) st
  let (a0, b0, c0, d0) := st
  (add32 a0 a, add32 b0 b, add32 c0 c, add32 d0 d)

/-- Fold over all 64-byte blocks; `fuel` (instantiated with the padded
length) keeps the recursion structural. -/
def md5Blocks (fuel : Nat) (st : Nat × Nat × Nat × Nat) (bytes : List Nat) :
    Nat × Nat × Nat × Nat :=
  match fuel, bytes with
  | 0, _ => st
  | _, [] => st
  | fuel + 1, bytes => md5Blocks fuel (md5Block st (bytes.take 64)) (bytes.drop 64)

def hexChar (n : Nat) : Char := "0123456789abcdef".data.getD n '0'

/-- One 32-bit word as eight lowercase hex characters, little-endian bytes. -/
def wordLEHex (x : Nat) : List Char :=
  (List.range 4).flatMap (fun i =>
    let byte := (x >>> (8 * i)) &&& 0xFF
    [hexChar (byte / 16), hexChar (byte % 16)])

def md5HexBytes (bytes : List Nat) : String :=
  let padded := md5Pad bytes
  let (a, b, c, d) :=
    md5Blocks padded.length (1732584193, 4023233417, 2562383102, 271733878) padded
  String.mk (wordLEHex a ++ wordLEHex b ++ wordLEHex c ++ wordLEHex d)

/-- Python `hashlib.md5(s.encode()).hexdigest()`. -/
def md5HexOfString (s : String) : String := md5HexBytes (utf8Bytes s)

/-! ### External task service client (lines 132-198). -/

/-- The `query_params` of `create_task_with_file_async` (lines 134-140):
the f-string `action={action}&id_project={project_id}&title={task_name}&text={description}`
with `action = "post_task"`. -/
def post_task_query_params (project_id : Int) (task_name description : String) : String :=
  "action=" ++ "post_task" ++ "&id_project=" ++ toString project_id
    ++ "&title=" ++ task_name ++ "&text=" ++ description

/-- Python `hashlib.md5((query_params + API_KEY).encode()).hexdigest()` (lines 141, 173). -/
def md5_sign (query_params API_KEY : String) : String :=
  md5HexOfString (query_params ++ API_KEY)

/-- The `request_url` of `create_task_with_file_async` (line 142). -/
def post_task_request_url (WORKSECTION_API_URL API_KEY : String) (project_id : Int)
    (task_name description : String) : String :=
  let query_params := post_task_query_params project_id task_name description
  let hash_hex := md5_sign query_params API_KEY
  WORKSECTION_API_URL ++ "?" ++ query_params ++ "&hash=" ++ hash_hex

/-- The `query_params` of `get_project_manager_name` (line 172). -/
def get_project_query_params (project_id : Int) : String :=
  "action=" ++ "get_project" ++ "&id_project=" ++ toString project_id

/-- The `request_url` of `get_project_manager_name` (line 174). -/
def get_project_request_url (WORKSECTION_API_URL API_KEY : String) (project_id : Int) : String :=
  let query_params := get_project_query_params project_id
  WORKSECTION_API_URL ++ "?" ++ query_params ++ "&hash=" ++ md5_sign query_params API_KEY

/-- Remote HTTP calls the client can issue. -/
inductive RemoteCall where
  | postTask (project_id : Int) (task_name description : String) (withAttachment : Bool)
  | getProject (project_id : Int)
deriving DecidableEq, Repr

/-- Outcome delivered by the network for the `post_task` call:
transport failure, a non-200 status, or a 200 JSON body whose `status`
field is `ok` or not. -/
inductive PostTaskResponse where
  | clientError (e : String)
  | httpStatus (code : Nat)
  | apiOk
  | apiError (err : Option String)
deriving DecidableEq, Repr

/-- Function `create_task_with_file_async` (lines 133-167): the returned message,
paired with the list of remote calls the invocation performs.  The
function holds no session/draft state — the source has no Session State
Store — and posts `post_task` unconditionally on every invocation. -/
def create_task_with_file_async (project_id : Int) (task_name description : String)
    (withAttachment : Bool) (resp : PostTaskResponse) : String × List RemoteCall :=
  (match resp with
   | .apiOk => "Задача успішно створена у Worksection."
   | .apiError e => "Помилка API Worksection: " ++ e.getD "Невідома помилка API."
   | .httpStatus code => "HTTP помилка Worksection: " ++ toString code
   | .clientError e => "Сталася помилка при відправленні задачі: " ++ e,
   [.postTask project_id task_name description withAttachment])

/-- Delivering the finalize-triggering event `k` times re-invokes
`create_task_with_file_async` `k` times (there is no draft record whose
deletion could stop a re-delivery). -/
def redeliverFinalize (k : Nat) (project_id : Int) (task_name description : String)
    (withAttachment : Bool) (resp : PostTaskResponse) : List RemoteCall :=
  (List.replicate k
    (create_task_with_file_async project_id task_name description withAttachment resp).2).flatten

/-- JSON body of the `get_project` response: unparsable, or an object in
which `user_to.name` is present or absent. -/
inductive JsonBody where
  | invalid
  | obj (userToName : Option String)
deriving DecidableEq, Repr

inductive HttpResult where
  | clientError (e : String)
  | unexpectedError (e : String)
  | response (status : Nat) (body : JsonBody)
deriving DecidableEq, Repr

/-- The one shape of result on which `get_project_manager_name` succeeds. -/
def HttpResult.isManagerOk : HttpResult → Bool
  | .response 200 (.obj (some _)) => true
  | _ => false

/-- Function `get_project_manager_name` (lines 170-198). -/
def get_project_manager_name (r : HttpResult) : String :=
  match r with
  | .clientError e => "Сталася помилка при отриманні керівника проекту: " ++ e
  | .unexpectedError e => "Несподівана помилка: " ++ e
  | .response status body =>
    if status ≠ 200 then "Помилка HTTP: " ++ toString status
    else
      match body with
      | .invalid => "Сталася помилка при обробці відповіді: некоректний JSON."
      | .obj (some name) => name
      | .obj none => "Не вдалося знайти інформацію про керівника проекту."

/-! ### MD5 sanity checks against the RFC 1321 test vectors. -/

theorem md5_test_vector_empty :
    md5HexOfString "" = "d41d8cd98f00b204e9800998ecf8427e" := by decide

theorem md5_test_vector_abc :
    md5HexOfString "abc" = "900150983cd24fb0d6963f7d28e17f72" := by decide

/-- UTF-8 encoding distributes over string concatenation: the bytes of
`a + b` are the bytes of `a` followed by the raw bytes of `b` — no
re-encoding or URL-escaping happens at the seam. -/
theorem utf8Bytes_append (a b : String) :
    utf8Bytes (a ++ b) = utf8Bytes a ++ utf8Bytes b := by
  unfold utf8Bytes
  rw [String.data_append]
  induction a.data with
  | nil => rfl
  | cons c cs ih => simp [ih]

/-! ### Claim C4 -/

/-- Modelled from the spec (§4.4): the canonical query string
`action=<op>&id_project=<id>&title=<t>&text=<d>` with the field order
fixed, for the refinement comparison against the source's builder. -/
def spec_canonical_query (op : String) (id_project : Int) (title text_field : String) :
    String :=
  "action=" ++ op ++ "&id_project=" ++ toString id_project
    ++ "&title=" ++ title ++ "&text=" ++ text_field

/-- C4: the request builder produces exactly the canonical query string
`action=<op>&id_project=<id>&title=<t>&text=<d>` in that fixed field
order, appends `hash` computed as the MD5 hex digest of the bytes of the
query followed by the raw bytes of the secret (no URL-encoding of the
secret), likewise for the `get_project` request, and the construction is
deterministic: identical inputs yield the identical query string and
hash. -/
theorem C4_signed_request_scheme :
    (∀ (base key : String) (pid : Int) (t d : String),
        post_task_request_url base key pid t d
          = base ++ "?" ++ spec_canonical_query "post_task" pid t d ++ "&hash="
              ++ md5HexBytes (utf8Bytes (spec_canonical_query "post_task" pid t d)
                  ++ utf8Bytes key))
    ∧ (∀ (base key : String) (pid : Int),
        get_project_request_url base key pid
          = base ++ "?" ++ ("action=get_project&id_project=" ++ toString pid) ++ "&hash="
              ++ md5HexBytes (utf8Bytes ("action=get_project&id_project=" ++ toString pid)
                  ++ utf8Bytes key))
    ∧ (∀ (base₁ base₂ key₁ key₂ : String) (pid₁ pid₂ : Int) (t₁ t₂ d₁ d₂ : String),
        base₁ = base₂ → key₁ = key₂ → pid₁ = pid₂ → t₁ = t₂ → d₁ = d₂ →
          post_task_request_url base₁ key₁ pid₁ t₁ d₁
            = post_task_request_url base₂ key₂ pid₂ t₂ d₂) := by
  refine ⟨?_, ?_, ?_⟩
  · intro base key pid t d
    simp only [post_task_request_url, md5_sign, md5HexOfString]
    rw [utf8Bytes_append]
    rfl
  · intro base key pid
    simp only [get_project_request_url, md5_sign, md5HexOfString]
    rw [utf8Bytes_append]
    rfl
  · intro base₁ base₂ key₁ key₂ pid₁ pid₂ t₁ t₂ d₁ d₂ hb hk hp ht hd
    rw [hb, hk, hp, ht, hd]

/-- C4 witness: a concrete signed request, plus the determinism conjunct
applied at equal concrete inputs. -/
theorem C4_signed_request_scheme_witness :
    post_task_request_url "https://ws.api" "secret" 7 "T" "D"
      = "https://ws.api" ++ "?" ++ spec_canonical_query "post_task" 7 "T" "D" ++ "&hash="
          ++ md5HexBytes (utf8Bytes (spec_canonical_query "post_task" 7 "T" "D")
              ++ utf8Bytes "secret")
    ∧ post_task_request_url "u" "k" 1 "a" "b" = post_task_request_url "u" "k" 1 "a" "b" :=
  ⟨C4_signed_request_scheme.1 "https://ws.api" "secret" 7 "T" "D",
   C4_signed_request_scheme.2.2 "u" "u" "k" "k" 1 1 "a" "a" "b" "b" rfl rfl rfl rfl rfl⟩

/-! ### Claim C3 -/

/-- C3: the source has no Session State Store and no draft deletion —
`create_task_with_file_async` posts `post_task` unconditionally on each
invocation, so delivering the finalize-triggering event twice for the one
draft `(project 1, "Fix login", "d")` performs two remote task creations,
not at most one. -/
theorem C3_redelivery_creates_two_remote_tasks :
    redeliverFinalize 2 1 "Fix login" "d" false .apiOk
      = [.postTask 1 "Fix login" "d" false, .postTask 1 "Fix login" "d" false]
    ∧ ¬ ((redeliverFinalize 2 1 "Fix login" "d" false .apiOk).length ≤ 1) := by
  refine ⟨rfl, by decide⟩

/-! ### Claim C6 -/

/-- C6 counterexample: at the concrete failing lookup (HTTP 500) the
result is the non-null error text `Помилка HTTP: 500`, not null. -/
theorem C6_error_text_counterexample :
    get_project_manager_name (.response 500 (.obj none)) = "Помилка HTTP: 500"
    ∧ get_project_manager_name (.response 500 (.obj none)) ≠ "" := by
  refine ⟨rfl, by decide⟩

theorem append_ne_empty_left (a b : String) (h : a.data ≠ []) : a ++ b ≠ "" := by
  intro heq
  apply h
  have hdata : (a ++ b).data = ([] : List Char) := by rw [heq]
  rw [String.data_append] at hdata
  exact (List.append_eq_nil.mp hdata).1

/-- C6 amended: on every failing lookup outcome (transport error, non-200
status, malformed JSON, missing `user_to.name`, unexpected exception)
`get_project_manager_name` returns a non-empty human-readable error
string, not null; and task creation never invokes the lookup at all —
`create_task_with_file_async` performs exactly the one `post_task` call —
so a failed lookup cannot abort task creation, and no leader name
(error text or otherwise) is ever stored, `save_task_to_db` being
likewise uncalled in the repository. -/
theorem C6_lookup_failure_yields_error_text :
    (∀ r : HttpResult, HttpResult.isManagerOk r = false →
        get_project_manager_name r ≠ "")
    ∧ (∀ (pid : Int) (t d : String) (att : Bool) (resp : PostTaskResponse),
        (create_task_with_file_async pid t d att resp).2
          = [RemoteCall.postTask pid t d att]) := by
  constructor
  · intro r hr
    cases r with
    | clientError e => exact append_ne_empty_left _ _ (by decide)
    | unexpectedError e => exact append_ne_empty_left _ _ (by decide)
    | response status body =>
      by_cases hs : status = 200
      · subst hs
        cases body with
        | invalid => decide
        | obj oname =>
          cases oname with
          | none => decide
          | some name => simp [HttpResult.isManagerOk] at hr
      · have hmsg : get_project_manager_name (.response status body)
            = "Помилка HTTP: " ++ toString status := by
          cases body with
          | invalid => simp [get_project_manager_name, hs]
          | obj o => simp [get_project_manager_name, hs]
        rw [hmsg]
        exact append_ne_empty_left _ _ (by decide)
  · intro pid t d att resp
    rfl

/-- C6 witness: a transport failure yields a non-empty error text. -/
theorem C6_lookup_failure_yields_error_text_witness :
    get_project_manager_name (.clientError "timeout") ≠ "" :=
  C6_lookup_failure_yields_error_text.1 (.clientError "timeout") (by decide)
